import Mathlib

/-!
Verification of the typed value-matching and comparison engine
(`valueMatches` / `compareValues` in `internal/datalist/values.go`).

Modelling choices:
* Go `float64` values are modelled by `FVal`: a finite number (an
  exact rational), `+Inf`, `-Inf`, or NaN.  IEEE comparisons with a
  NaN operand are false, the infinities compare strictly against every
  finite value and against each other, `Inf - Inf` and any
  subtraction involving NaN produce NaN, and `math.Abs` of NaN is NaN,
  so `floatApproxEquals` is false whenever an operand is non-finite;
  the model reproduces exactly that.  IEEE `!=` against `0.` is true
  for NaN and the infinities and decided by numeric equality
  otherwise.
* Go `interface{}` payloads are modelled by the sum type `Value`;
  a failing Go type assertion (a panic) is modelled by the result
  `none` of `Option`, and plain results by `some`.
* A precompiled `*regexp.Regexp` filter is modelled by its
  `MatchString` extension, a function `String → Bool`.
* `strings.Contains` is modelled by `goContains` (substring
  containment on the character list), `strings.EqualFold` by
  rune-wise equality of Unicode simple case folds (`simpleFold`,
  driven by the Unicode 14.0.0 simple case folding table
  `foldRanges` — `EqualFold` equates two runes exactly when they fold
  to the same code point), and `strings.Compare` by `goStrCompare`
  (lexicographic three-way comparison; UTF-8 byte order agrees with
  codepoint order).
-/

/-- Model of `schema.ValueType` from the terraform SDK (the tags the
engine dispatches on, plus the unhandled tags `TypeInvalid` and
`TypeMap`). -/
inductive ValueType where
  | TypeInvalid
  | TypeBool
  | TypeInt
  | TypeFloat
  | TypeString
  | TypeList
  | TypeMap
  | TypeSet
deriving DecidableEq, Repr

/-- Model of `*schema.Schema`: the type tag together with the `Elem`
field; `none` models an `Elem` that is absent or not a
`*schema.Schema` (so that the assertion `s.Elem.(*schema.Schema)`
panics). -/
inductive Schema where
  | mk (ty : ValueType) (elem : Option Schema)

/-- The type tag of a schema node. -/
def Schema.type : Schema → ValueType
  | .mk ty _ => ty

/-- The element schema of a schema node. -/
def Schema.elem : Schema → Option Schema
  | .mk _ e => e

/-- Model of a Go `float64`: a finite value (exact rational), `+Inf`,
`-Inf`, or NaN. -/
inductive FVal where
  | fin (q : ℚ)
  | posInf
  | negInf
  | nan
deriving DecidableEq, Repr

/-- IEEE `<` on doubles: false whenever an operand is NaN; `-Inf` is
below every finite value and `+Inf`, and `+Inf` is below nothing. -/
def fltB : FVal → FVal → Bool
  | .fin x, .fin y => decide (x < y)
  | .fin _, .posInf => true
  | .negInf, .fin _ => true
  | .negInf, .posInf => true
  | _, _ => false

/-- IEEE `>` on doubles: false whenever an operand is NaN; `+Inf` is
above every finite value and `-Inf`, and `-Inf` is above nothing. -/
def fgtB : FVal → FVal → Bool
  | .fin x, .fin y => decide (x > y)
  | .posInf, .fin _ => true
  | .posInf, .negInf => true
  | .fin _, .negInf => true
  | _, _ => false

/-- Go `val != 0.`: IEEE inequality against zero.  NaN and the
infinities are unequal to zero, so they pass this test. -/
def fneZero : FVal → Bool
  | .fin x => decide (x ≠ 0)
  | _ => true

/-- `floatApproxEquals(a, b) = math.Abs(a-b) < 0.000001`.  If either
operand is NaN the subtraction and absolute value are NaN and the
comparison is false; if an operand is infinite the difference is
`±Inf` (or NaN for same-signed infinities), whose absolute value is
never below the epsilon. -/
def floatApproxEquals : FVal → FVal → Bool
  | .fin a, .fin b => decide (|a - b| < 1/1000000)
  | _, _ => false

/-- Model of the dynamically typed payloads (`interface{}`) handed to
the engine: scalar strings, booleans, machine integers, doubles, a
slice (`[]interface{}`), a `*schema.Set` (its `List()` elements, in
the iteration order the set happens to produce), or a precompiled
regular expression represented by its `MatchString` function. -/
inductive Value where
  | str (s : String)
  | bool (b : Bool)
  | int (i : ℤ)
  | float (f : FVal)
  | list (vs : List Value)
  | set (vs : List Value)
  | regex (m : String → Bool)

/-- The Unicode 14.0.0 simple case folding table, as ranges
`(lo, hi, img)`: a code point `c` with `lo ≤ c ≤ hi` folds to
`img + (c - lo)`; a code point lying in no range folds to itself.
This includes the non-ASCII folds `strings.EqualFold` applies, e.g.
`Σ`/`ς` fold to `σ` and the Kelvin sign U+212A folds to `k`. -/
def foldRanges : List (Nat × Nat × Nat) :=
  [
    (65, 90, 97), (181, 181, 956), (192, 214, 224), (216, 222, 248),
    (256, 256, 257), (258, 258, 259), (260, 260, 261), (262, 262, 263),
    (264, 264, 265), (266, 266, 267), (268, 268, 269), (270, 270, 271),
    (272, 272, 273), (274, 274, 275), (276, 276, 277), (278, 278, 279),
    (280, 280, 281), (282, 282, 283), (284, 284, 285), (286, 286, 287),
    (288, 288, 289), (290, 290, 291), (292, 292, 293), (294, 294, 295),
    (296, 296, 297), (298, 298, 299), (300, 300, 301), (302, 302, 303),
    (306, 306, 307), (308, 308, 309), (310, 310, 311), (313, 313, 314),
    (315, 315, 316), (317, 317, 318), (319, 319, 320), (321, 321, 322),
    (323, 323, 324), (325, 325, 326), (327, 327, 328), (330, 330, 331),
    (332, 332, 333), (334, 334, 335), (336, 336, 337), (338, 338, 339),
    (340, 340, 341), (342, 342, 343), (344, 344, 345), (346, 346, 347),
    (348, 348, 349), (350, 350, 351), (352, 352, 353), (354, 354, 355),
    (356, 356, 357), (358, 358, 359), (360, 360, 361), (362, 362, 363),
    (364, 364, 365), (366, 366, 367), (368, 368, 369), (370, 370, 371),
    (372, 372, 373), (374, 374, 375), (376, 376, 255), (377, 377, 378),
    (379, 379, 380), (381, 381, 382), (383, 383, 115), (385, 385, 595),
    (386, 386, 387), (388, 388, 389), (390, 390, 596), (391, 391, 392),
    (393, 394, 598), (395, 395, 396), (398, 398, 477), (399, 399, 601),
    (400, 400, 603), (401, 401, 402), (403, 403, 608), (404, 404, 611),
    (406, 406, 617), (407, 407, 616), (408, 408, 409), (412, 412, 623),
    (413, 413, 626), (415, 415, 629), (416, 416, 417), (418, 418, 419),
    (420, 420, 421), (422, 422, 640), (423, 423, 424), (425, 425, 643),
    (428, 428, 429), (430, 430, 648), (431, 431, 432), (433, 434, 650),
    (435, 435, 436), (437, 437, 438), (439, 439, 658), (440, 440, 441),
    (444, 444, 445), (452, 452, 454), (453, 453, 454), (455, 455, 457),
    (456, 456, 457), (458, 458, 460), (459, 459, 460), (461, 461, 462),
    (463, 463, 464), (465, 465, 466), (467, 467, 468), (469, 469, 470),
    (471, 471, 472), (473, 473, 474), (475, 475, 476), (478, 478, 479),
    (480, 480, 481), (482, 482, 483), (484, 484, 485), (486, 486, 487),
    (488, 488, 489), (490, 490, 491), (492, 492, 493), (494, 494, 495),
    (497, 497, 499), (498, 498, 499), (500, 500, 501), (502, 502, 405),
    (503, 503, 447), (504, 504, 505), (506, 506, 507), (508, 508, 509),
    (510, 510, 511), (512, 512, 513), (514, 514, 515), (516, 516, 517),
    (518, 518, 519), (520, 520, 521), (522, 522, 523), (524, 524, 525),
    (526, 526, 527), (528, 528, 529), (530, 530, 531), (532, 532, 533),
    (534, 534, 535), (536, 536, 537), (538, 538, 539), (540, 540, 541),
    (542, 542, 543), (544, 544, 414), (546, 546, 547), (548, 548, 549),
    (550, 550, 551), (552, 552, 553), (554, 554, 555), (556, 556, 557),
    (558, 558, 559), (560, 560, 561), (562, 562, 563), (570, 570, 11365),
    (571, 571, 572), (573, 573, 410), (574, 574, 11366), (577, 577, 578),
    (579, 579, 384), (580, 580, 649), (581, 581, 652), (582, 582, 583),
    (584, 584, 585), (586, 586, 587), (588, 588, 589), (590, 590, 591),
    (837, 837, 953), (880, 880, 881), (882, 882, 883), (886, 886, 887),
    (895, 895, 1011), (902, 902, 940), (904, 906, 941), (908, 908, 972),
    (910, 911, 973), (913, 929, 945), (931, 939, 963), (962, 962, 963),
    (975, 975, 983), (976, 976, 946), (977, 977, 952), (981, 981, 966),
    (982, 982, 960), (984, 984, 985), (986, 986, 987), (988, 988, 989),
    (990, 990, 991), (992, 992, 993), (994, 994, 995), (996, 996, 997),
    (998, 998, 999), (1000, 1000, 1001), (1002, 1002, 1003), (1004, 1004, 1005),
    (1006, 1006, 1007), (1008, 1008, 954), (1009, 1009, 961), (1012, 1012, 952),
    (1013, 1013, 949), (1015, 1015, 1016), (1017, 1017, 1010), (1018, 1018, 1019),
    (1021, 1023, 891), (1024, 1039, 1104), (1040, 1071, 1072), (1120, 1120, 1121),
    (1122, 1122, 1123), (1124, 1124, 1125), (1126, 1126, 1127), (1128, 1128, 1129),
    (1130, 1130, 1131), (1132, 1132, 1133), (1134, 1134, 1135), (1136, 1136, 1137),
    (1138, 1138, 1139), (1140, 1140, 1141), (1142, 1142, 1143), (1144, 1144, 1145),
    (1146, 1146, 1147), (1148, 1148, 1149), (1150, 1150, 1151), (1152, 1152, 1153),
    (1162, 1162, 1163), (1164, 1164, 1165), (1166, 1166, 1167), (1168, 1168, 1169),
    (1170, 1170, 1171), (1172, 1172, 1173), (1174, 1174, 1175), (1176, 1176, 1177),
    (1178, 1178, 1179), (1180, 1180, 1181), (1182, 1182, 1183), (1184, 1184, 1185),
    (1186, 1186, 1187), (1188, 1188, 1189), (1190, 1190, 1191), (1192, 1192, 1193),
    (1194, 1194, 1195), (1196, 1196, 1197), (1198, 1198, 1199), (1200, 1200, 1201),
    (1202, 1202, 1203), (1204, 1204, 1205), (1206, 1206, 1207), (1208, 1208, 1209),
    (1210, 1210, 1211), (1212, 1212, 1213), (1214, 1214, 1215), (1216, 1216, 1231),
    (1217, 1217, 1218), (1219, 1219, 1220), (1221, 1221, 1222), (1223, 1223, 1224),
    (1225, 1225, 1226), (1227, 1227, 1228), (1229, 1229, 1230), (1232, 1232, 1233),
    (1234, 1234, 1235), (1236, 1236, 1237), (1238, 1238, 1239), (1240, 1240, 1241),
    (1242, 1242, 1243), (1244, 1244, 1245), (1246, 1246, 1247), (1248, 1248, 1249),
    (1250, 1250, 1251), (1252, 1252, 1253), (1254, 1254, 1255), (1256, 1256, 1257),
    (1258, 1258, 1259), (1260, 1260, 1261), (1262, 1262, 1263), (1264, 1264, 1265),
    (1266, 1266, 1267), (1268, 1268, 1269), (1270, 1270, 1271), (1272, 1272, 1273),
    (1274, 1274, 1275), (1276, 1276, 1277), (1278, 1278, 1279), (1280, 1280, 1281),
    (1282, 1282, 1283), (1284, 1284, 1285), (1286, 1286, 1287), (1288, 1288, 1289),
    (1290, 1290, 1291), (1292, 1292, 1293), (1294, 1294, 1295), (1296, 1296, 1297),
    (1298, 1298, 1299), (1300, 1300, 1301), (1302, 1302, 1303), (1304, 1304, 1305),
    (1306, 1306, 1307), (1308, 1308, 1309), (1310, 1310, 1311), (1312, 1312, 1313),
    (1314, 1314, 1315), (1316, 1316, 1317), (1318, 1318, 1319), (1320, 1320, 1321),
    (1322, 1322, 1323), (1324, 1324, 1325), (1326, 1326, 1327), (1329, 1366, 1377),
    (4256, 4293, 11520), (4295, 4295, 11559), (4301, 4301, 11565), (5112, 5117, 5104),
    (7296, 7296, 1074), (7297, 7297, 1076), (7298, 7298, 1086), (7299, 7300, 1089),
    (7301, 7301, 1090), (7302, 7302, 1098), (7303, 7303, 1123), (7304, 7304, 42571),
    (7312, 7354, 4304), (7357, 7359, 4349), (7680, 7680, 7681), (7682, 7682, 7683),
    (7684, 7684, 7685), (7686, 7686, 7687), (7688, 7688, 7689), (7690, 7690, 7691),
    (7692, 7692, 7693), (7694, 7694, 7695), (7696, 7696, 7697), (7698, 7698, 7699),
    (7700, 7700, 7701), (7702, 7702, 7703), (7704, 7704, 7705), (7706, 7706, 7707),
    (7708, 7708, 7709), (7710, 7710, 7711), (7712, 7712, 7713), (7714, 7714, 7715),
    (7716, 7716, 7717), (7718, 7718, 7719), (7720, 7720, 7721), (7722, 7722, 7723),
    (7724, 7724, 7725), (7726, 7726, 7727), (7728, 7728, 7729), (7730, 7730, 7731),
    (7732, 7732, 7733), (7734, 7734, 7735), (7736, 7736, 7737), (7738, 7738, 7739),
    (7740, 7740, 7741), (7742, 7742, 7743), (7744, 7744, 7745), (7746, 7746, 7747),
    (7748, 7748, 7749), (7750, 7750, 7751), (7752, 7752, 7753), (7754, 7754, 7755),
    (7756, 7756, 7757), (7758, 7758, 7759), (7760, 7760, 7761), (7762, 7762, 7763),
    (7764, 7764, 7765), (7766, 7766, 7767), (7768, 7768, 7769), (7770, 7770, 7771),
    (7772, 7772, 7773), (7774, 7774, 7775), (7776, 7776, 7777), (7778, 7778, 7779),
    (7780, 7780, 7781), (7782, 7782, 7783), (7784, 7784, 7785), (7786, 7786, 7787),
    (7788, 7788, 7789), (7790, 7790, 7791), (7792, 7792, 7793), (7794, 7794, 7795),
    (7796, 7796, 7797), (7798, 7798, 7799), (7800, 7800, 7801), (7802, 7802, 7803),
    (7804, 7804, 7805), (7806, 7806, 7807), (7808, 7808, 7809), (7810, 7810, 7811),
    (7812, 7812, 7813), (7814, 7814, 7815), (7816, 7816, 7817), (7818, 7818, 7819),
    (7820, 7820, 7821), (7822, 7822, 7823), (7824, 7824, 7825), (7826, 7826, 7827),
    (7828, 7828, 7829), (7835, 7835, 7777), (7838, 7838, 223), (7840, 7840, 7841),
    (7842, 7842, 7843), (7844, 7844, 7845), (7846, 7846, 7847), (7848, 7848, 7849),
    (7850, 7850, 7851), (7852, 7852, 7853), (7854, 7854, 7855), (7856, 7856, 7857),
    (7858, 7858, 7859), (7860, 7860, 7861), (7862, 7862, 7863), (7864, 7864, 7865),
    (7866, 7866, 7867), (7868, 7868, 7869), (7870, 7870, 7871), (7872, 7872, 7873),
    (7874, 7874, 7875), (7876, 7876, 7877), (7878, 7878, 7879), (7880, 7880, 7881),
    (7882, 7882, 7883), (7884, 7884, 7885), (7886, 7886, 7887), (7888, 7888, 7889),
    (7890, 7890, 7891), (7892, 7892, 7893), (7894, 7894, 7895), (7896, 7896, 7897),
    (7898, 7898, 7899), (7900, 7900, 7901), (7902, 7902, 7903), (7904, 7904, 7905),
    (7906, 7906, 7907), (7908, 7908, 7909), (7910, 7910, 7911), (7912, 7912, 7913),
    (7914, 7914, 7915), (7916, 7916, 7917), (7918, 7918, 7919), (7920, 7920, 7921),
    (7922, 7922, 7923), (7924, 7924, 7925), (7926, 7926, 7927), (7928, 7928, 7929),
    (7930, 7930, 7931), (7932, 7932, 7933), (7934, 7934, 7935), (7944, 7951, 7936),
    (7960, 7965, 7952), (7976, 7983, 7968), (7992, 7999, 7984), (8008, 8013, 8000),
    (8025, 8025, 8017), (8027, 8027, 8019), (8029, 8029, 8021), (8031, 8031, 8023),
    (8040, 8047, 8032), (8072, 8079, 8064), (8088, 8095, 8080), (8104, 8111, 8096),
    (8120, 8121, 8112), (8122, 8123, 8048), (8124, 8124, 8115), (8126, 8126, 953),
    (8136, 8139, 8050), (8140, 8140, 8131), (8152, 8153, 8144), (8154, 8155, 8054),
    (8168, 8169, 8160), (8170, 8171, 8058), (8172, 8172, 8165), (8184, 8185, 8056),
    (8186, 8187, 8060), (8188, 8188, 8179), (8486, 8486, 969), (8490, 8490, 107),
    (8491, 8491, 229), (8498, 8498, 8526), (8544, 8559, 8560), (8579, 8579, 8580),
    (9398, 9423, 9424), (11264, 11311, 11312), (11360, 11360, 11361), (11362, 11362, 619),
    (11363, 11363, 7549), (11364, 11364, 637), (11367, 11367, 11368), (11369, 11369, 11370),
    (11371, 11371, 11372), (11373, 11373, 593), (11374, 11374, 625), (11375, 11375, 592),
    (11376, 11376, 594), (11378, 11378, 11379), (11381, 11381, 11382), (11390, 11391, 575),
    (11392, 11392, 11393), (11394, 11394, 11395), (11396, 11396, 11397), (11398, 11398, 11399),
    (11400, 11400, 11401), (11402, 11402, 11403), (11404, 11404, 11405), (11406, 11406, 11407),
    (11408, 11408, 11409), (11410, 11410, 11411), (11412, 11412, 11413), (11414, 11414, 11415),
    (11416, 11416, 11417), (11418, 11418, 11419), (11420, 11420, 11421), (11422, 11422, 11423),
    (11424, 11424, 11425), (11426, 11426, 11427), (11428, 11428, 11429), (11430, 11430, 11431),
    (11432, 11432, 11433), (11434, 11434, 11435), (11436, 11436, 11437), (11438, 11438, 11439),
    (11440, 11440, 11441), (11442, 11442, 11443), (11444, 11444, 11445), (11446, 11446, 11447),
    (11448, 11448, 11449), (11450, 11450, 11451), (11452, 11452, 11453), (11454, 11454, 11455),
    (11456, 11456, 11457), (11458, 11458, 11459), (11460, 11460, 11461), (11462, 11462, 11463),
    (11464, 11464, 11465), (11466, 11466, 11467), (11468, 11468, 11469), (11470, 11470, 11471),
    (11472, 11472, 11473), (11474, 11474, 11475), (11476, 11476, 11477), (11478, 11478, 11479),
    (11480, 11480, 11481), (11482, 11482, 11483), (11484, 11484, 11485), (11486, 11486, 11487),
    (11488, 11488, 11489), (11490, 11490, 11491), (11499, 11499, 11500), (11501, 11501, 11502),
    (11506, 11506, 11507), (42560, 42560, 42561), (42562, 42562, 42563), (42564, 42564, 42565),
    (42566, 42566, 42567), (42568, 42568, 42569), (42570, 42570, 42571), (42572, 42572, 42573),
    (42574, 42574, 42575), (42576, 42576, 42577), (42578, 42578, 42579), (42580, 42580, 42581),
    (42582, 42582, 42583), (42584, 42584, 42585), (42586, 42586, 42587), (42588, 42588, 42589),
    (42590, 42590, 42591), (42592, 42592, 42593), (42594, 42594, 42595), (42596, 42596, 42597),
    (42598, 42598, 42599), (42600, 42600, 42601), (42602, 42602, 42603), (42604, 42604, 42605),
    (42624, 42624, 42625), (42626, 42626, 42627), (42628, 42628, 42629), (42630, 42630, 42631),
    (42632, 42632, 42633), (42634, 42634, 42635), (42636, 42636, 42637), (42638, 42638, 42639),
    (42640, 42640, 42641), (42642, 42642, 42643), (42644, 42644, 42645), (42646, 42646, 42647),
    (42648, 42648, 42649), (42650, 42650, 42651), (42786, 42786, 42787), (42788, 42788, 42789),
    (42790, 42790, 42791), (42792, 42792, 42793), (42794, 42794, 42795), (42796, 42796, 42797),
    (42798, 42798, 42799), (42802, 42802, 42803), (42804, 42804, 42805), (42806, 42806, 42807),
    (42808, 42808, 42809), (42810, 42810, 42811), (42812, 42812, 42813), (42814, 42814, 42815),
    (42816, 42816, 42817), (42818, 42818, 42819), (42820, 42820, 42821), (42822, 42822, 42823),
    (42824, 42824, 42825), (42826, 42826, 42827), (42828, 42828, 42829), (42830, 42830, 42831),
    (42832, 42832, 42833), (42834, 42834, 42835), (42836, 42836, 42837), (42838, 42838, 42839),
    (42840, 42840, 42841), (42842, 42842, 42843), (42844, 42844, 42845), (42846, 42846, 42847),
    (42848, 42848, 42849), (42850, 42850, 42851), (42852, 42852, 42853), (42854, 42854, 42855),
    (42856, 42856, 42857), (42858, 42858, 42859), (42860, 42860, 42861), (42862, 42862, 42863),
    (42873, 42873, 42874), (42875, 42875, 42876), (42877, 42877, 7545), (42878, 42878, 42879),
    (42880, 42880, 42881), (42882, 42882, 42883), (42884, 42884, 42885), (42886, 42886, 42887),
    (42891, 42891, 42892), (42893, 42893, 613), (42896, 42896, 42897), (42898, 42898, 42899),
    (42902, 42902, 42903), (42904, 42904, 42905), (42906, 42906, 42907), (42908, 42908, 42909),
    (42910, 42910, 42911), (42912, 42912, 42913), (42914, 42914, 42915), (42916, 42916, 42917),
    (42918, 42918, 42919), (42920, 42920, 42921), (42922, 42922, 614), (42923, 42923, 604),
    (42924, 42924, 609), (42925, 42925, 620), (42926, 42926, 618), (42928, 42928, 670),
    (42929, 42929, 647), (42930, 42930, 669), (42931, 42931, 43859), (42932, 42932, 42933),
    (42934, 42934, 42935), (42936, 42936, 42937), (42938, 42938, 42939), (42940, 42940, 42941),
    (42942, 42942, 42943), (42944, 42944, 42945), (42946, 42946, 42947), (42948, 42948, 42900),
    (42949, 42949, 642), (42950, 42950, 7566), (42951, 42951, 42952), (42953, 42953, 42954),
    (42960, 42960, 42961), (42966, 42966, 42967), (42968, 42968, 42969), (42997, 42997, 42998),
    (43888, 43967, 5024), (65313, 65338, 65345), (66560, 66599, 66600), (66736, 66771, 66776),
    (66928, 66938, 66967), (66940, 66954, 66979), (66956, 66962, 66995), (66964, 66965, 67003),
    (68736, 68786, 68800), (71840, 71871, 71872), (93760, 93791, 93792), (125184, 125217, 125218)
  ]

/-- Unicode simple case folding of one character.  `strings.EqualFold`
treats two runes as equal exactly when they have the same simple case
fold. -/
def simpleFold (c : Char) : Char :=
  match foldRanges.find? (fun r => decide (r.1 ≤ c.toNat ∧ c.toNat ≤ r.2.1)) with
  | some r => Char.ofNat (r.2.2 + (c.toNat - r.1))
  | none => c

/-- Character-list core of `goEqualFold`: equal rune count and
rune-wise equality under simple case folding. -/
def eqFoldList : List Char → List Char → Bool
  | [], [] => true
  | a :: as, b :: bs => (simpleFold a == simpleFold b) && eqFoldList as bs
  | _, _ => false

/-- Model of `strings.EqualFold`: case-insensitive string equality
under Unicode simple case folding. -/
def goEqualFold (a b : String) : Bool :=
  eqFoldList a.toList b.toList

/-- Helper for `goContains`: does `l` start with `p`? -/
def startsWithAux : List Char → List Char → Bool
  | [], _ => true
  | _ :: _, [] => false
  | a :: as, b :: bs => a == b && startsWithAux as bs

/-- Helper for `goContains`: does some suffix of `l` start with `sub`? -/
def containsAux (sub : List Char) : List Char → Bool
  | [] => sub.isEmpty
  | c :: rest => startsWithAux sub (c :: rest) || containsAux sub rest

/-- Model of `strings.Contains(s, sub)`: substring containment. -/
def goContains (s sub : String) : Bool :=
  containsAux sub.toList s.toList

/-- Model of `strings.Compare`: three-way lexicographic comparison
(-1, 0, or 1).  Go compares UTF-8 bytes; byte order coincides with the
codepoint order used by Lean's `String` order. -/
def goStrCompare (a b : String) : Int :=
  if a < b then -1 else if b < a then 1 else 0

mutual

/-- Shallow embedding of `valueMatches` from
`internal/datalist/values.go`.  `none` models a panic (a failed type
assertion); `some r` models a normal return of `r`. -/
def valueMatches (s : Schema) (value filterValue : Value) (matchBy : String) :
    Option Bool :=
  match s.type with
  | .TypeString =>
    match value with
    | .str v =>
      match matchBy with
      | "substring" =>
        match filterValue with
        | .str f => some (goContains v f)
        | _ => none
      | "re" =>
        match filterValue with
        | .regex r => some (r v)
        | _ => none
      | _ =>
        match filterValue with
        | .str f => some (goEqualFold f v)
        | _ => none
    | _ => none
  | .TypeBool =>
    match filterValue, value with
    | .bool f, .bool v => some (f == v)
    | _, _ => none
  | .TypeInt =>
    match value, filterValue with
    | .int val, .int filter =>
      match matchBy with
      | "less_than" => some (decide (val < filter))
      | "less_than_or_equal" => some (decide (val ≤ filter))
      | "greater_than" => some (decide (val > filter))
      | "greater_than_or_equal" => some (decide (val ≥ filter))
      | _ => some (decide (val = filter))
    | _, _ => none
  | .TypeFloat =>
    match value, filterValue with
    | .float val, .float filter =>
      match matchBy with
      | "less_than" => some (fneZero val && fltB val filter)
      | "less_than_or_equal" =>
        some (fneZero val && (fltB val filter || floatApproxEquals filter val))
      | "greater_than" => some (fneZero val && fgtB val filter)
      | "greater_than_or_equal" =>
        some (fneZero val && (fgtB val filter || floatApproxEquals filter val))
      | _ => some (floatApproxEquals filter val)
    | _, _ => none
  | .TypeList =>
    match value with
    | .list listValues => matchElems s.elem listValues filterValue matchBy false
    | _ => none
  | .TypeSet =>
    match value with
    | .set listValues => matchElems s.elem listValues filterValue matchBy false
    | _ => none
  | _ => some false
termination_by structural value

/-- The element loop of `valueMatches` for `TypeList`/`TypeSet`:
`result := false; for each element { result = result || match }`.
The assertion `s.Elem.(*schema.Schema)` happens inside the loop, so an
empty collection returns the accumulator without touching `Elem`. -/
def matchElems (elem : Option Schema) (vs : List Value)
    (filterValue : Value) (matchBy : String) (acc : Bool) : Option Bool :=
  match vs with
  | [] => some acc
  | v :: rest =>
    match elem with
    | none => none
    | some es =>
      match valueMatches es v filterValue matchBy with
      | none => none
      | some b => matchElems elem rest filterValue matchBy (acc || b)
termination_by structural vs

end

/-- Shallow embedding of `compareValues` from
`internal/datalist/values.go`.  `none` models a panic: either a failed
type assertion or the explicit `panic("Illegal state: Unsupported
value type for sort")` in the default branch. -/
def compareValues (s : Schema) (value1 value2 : Value) : Option Int :=
  match s.type with
  | .TypeString =>
    match value1, value2 with
    | .str a, .str b => some (goStrCompare a b)
    | _, _ => none
  | .TypeBool =>
    match value1, value2 with
    | .bool b1, .bool b2 =>
      some (if b1 == b2 then 0 else if !b1 then -1 else 1)
    | _, _ => none
  | .TypeInt =>
    match value1, value2 with
    | .int i1, .int i2 =>
      some (if i1 < i2 then -1 else if i1 > i2 then 1 else 0)
    | _, _ => none
  | .TypeFloat =>
    match value1, value2 with
    | .float f1, .float f2 =>
      some (if floatApproxEquals f1 f2 then 0
            else if fltB f1 f2 then -1
            else if fgtB f1 f2 then 1
            else 0)
    | _, _ => none
  | _ => none

/-! ### Schemas used in the statements -/

/-- A scalar string schema. -/
def strSchema : Schema := .mk .TypeString none

/-- A scalar bool schema. -/
def boolSchema : Schema := .mk .TypeBool none

/-- A scalar int schema. -/
def intSchema : Schema := .mk .TypeInt none

/-- A scalar float schema. -/
def floatSchema : Schema := .mk .TypeFloat none

/-- The four relational match modes. -/
def relationalModes : List String :=
  ["less_than", "less_than_or_equal", "greater_than", "greater_than_or_equal"]

/-! ### C1 -/

/-- C1: zero-as-absent policy.  For every float filter value `f` and
every relational match mode, `valueMatches` on a Float schema with the
value exactly `0.0` returns `false`, regardless of `f`. -/
theorem c1_zero_as_absent (f : FVal) (m : String) (hm : m ∈ relationalModes) :
    valueMatches floatSchema (.float (.fin 0)) (.float f) m = some false := by
  simp only [relationalModes, List.mem_cons, List.not_mem_nil, or_false] at hm
  rcases hm with rfl | rfl | rfl | rfl
  all_goals rfl

/-- C1 witness: instantiation at the filter `3.5` and mode
`greater_than`. -/
theorem c1_zero_as_absent_witness :
    valueMatches floatSchema (.float (.fin 0)) (.float (.fin (7/2)))
      "greater_than" = some false :=
  c1_zero_as_absent (.fin (7/2)) "greater_than" (by decide)

/-! ### C2 -/

/-- C2: epsilon-tolerant float equality.  For all finite floats `a`,
`b` with `|a - b| < 1e-6`, `valueMatches` on a Float schema in the
default (empty-string) mode returns `true`, and `compareValues`
returns `0`. -/
theorem c2_epsilon_equality (a b : ℚ) (h : |a - b| < 1/1000000) :
    valueMatches floatSchema (.float (.fin a)) (.float (.fin b)) "" = some true ∧
    compareValues floatSchema (.float (.fin a)) (.float (.fin b)) = some 0 := by
  have hba : |b - a| < 1/1000000 := by rwa [abs_sub_comm]
  have hab : floatApproxEquals (.fin a) (.fin b) = true := decide_eq_true h
  constructor
  · exact congrArg some (decide_eq_true hba)
  · show some (if floatApproxEquals (.fin a) (.fin b) then (0 : Int)
        else if fltB (.fin a) (.fin b) then -1
        else if fgtB (.fin a) (.fin b) then 1 else 0) = some 0
    rw [hab]
    rfl

/-- C2 witness: instantiation at `a = 1`, `b = 1 + 1/2000000`. -/
theorem c2_epsilon_equality_witness :
    valueMatches floatSchema (.float (.fin 1)) (.float (.fin (1 + 1/2000000)))
        "" = some true ∧
    compareValues floatSchema (.float (.fin 1)) (.float (.fin (1 + 1/2000000)))
        = some 0 :=
  c2_epsilon_equality 1 (1 + 1/2000000)
    (by rw [show (1 : ℚ) - (1 + 1/2000000) = -(1/2000000) by ring, abs_neg,
          abs_of_pos (by norm_num)]
        norm_num)

/-! ### C3 -/

/-- C3: comparator hard failure.  For every type tag outside
`{String, Bool, Int, Float}` (in particular `List` and `Set`) and
every pair of values, `compareValues` panics (modelled by `none`) and
never returns an ordering result. -/
theorem c3_compare_hard_failure (ty : ValueType)
    (h : ty ∉ ([.TypeString, .TypeBool, .TypeInt, .TypeFloat] : List ValueType))
    (elem : Option Schema) (v1 v2 : Value) :
    compareValues (.mk ty elem) v1 v2 = none := by
  cases ty
  all_goals first
    | (exfalso; exact h (by decide))
    | rfl

/-- C3 witness: instantiation at a List-of-Int schema and two integer
values. -/
theorem c3_compare_hard_failure_witness :
    compareValues (.mk .TypeList (some intSchema)) (.int 1) (.int 2) = none :=
  c3_compare_hard_failure .TypeList (by decide) (some intSchema) (.int 1) (.int 2)

/-! ### C4 -/

/-- C4: matcher soft fallback.  `valueMatches` never signals an error
for a match mode the schema's type does not support: a non-relational
mode on Int yields exact equality, any mode on Bool yields equality,
a non-substring/non-regex mode on String yields case-insensitive
equality, a non-relational mode on Float yields the epsilon equality,
and a schema whose tag is outside `{String, Bool, Int, Float, List,
Set}` yields `false` for every value, filter and mode. -/
theorem c4_matcher_soft_fallback :
    (∀ (v f : ℤ) (m : String), m ∉ relationalModes →
      valueMatches intSchema (.int v) (.int f) m = some (decide (v = f))) ∧
    (∀ (v f : Bool) (m : String),
      valueMatches boolSchema (.bool v) (.bool f) m = some (f == v)) ∧
    (∀ (v f : String) (m : String), m ≠ "substring" → m ≠ "re" →
      valueMatches strSchema (.str v) (.str f) m = some (goEqualFold f v)) ∧
    (∀ (v f : FVal) (m : String), m ∉ relationalModes →
      valueMatches floatSchema (.float v) (.float f) m
        = some (floatApproxEquals f v)) ∧
    (∀ (elem : Option Schema) (value filterValue : Value) (m : String),
      valueMatches (.mk .TypeInvalid elem) value filterValue m = some false ∧
      valueMatches (.mk .TypeMap elem) value filterValue m = some false) := by
  refine ⟨fun v f m hm => ?_, fun v f m => rfl, fun v f m h1 h2 => ?_,
    fun v f m hm => ?_,
    fun elem value filterValue m => ⟨by cases value <;> rfl, by cases value <;> rfl⟩⟩
  · simp only [relationalModes, List.mem_cons, List.not_mem_nil, or_false,
      not_or] at hm
    obtain ⟨h1, h2, h3, h4⟩ := hm
    simp only [valueMatches, intSchema, Schema.type]
  · simp only [valueMatches, strSchema, Schema.type]
  · simp only [relationalModes, List.mem_cons, List.not_mem_nil, or_false,
      not_or] at hm
    obtain ⟨h1, h2, h3, h4⟩ := hm
    simp only [valueMatches, floatSchema, Schema.type]

/-- C4 witness: instantiation of each fallback clause at the
unsupported mode `bogus_mode`. -/
theorem c4_matcher_soft_fallback_witness :
    valueMatches intSchema (.int 3) (.int 3) "bogus_mode"
        = some (decide ((3 : ℤ) = 3)) ∧
    valueMatches strSchema (.str "Ab") (.str "aB") "bogus_mode"
        = some (goEqualFold "aB" "Ab") ∧
    valueMatches floatSchema (.float (.fin 1)) (.float (.fin 1)) "bogus_mode"
        = some (floatApproxEquals (.fin 1) (.fin 1)) :=
  ⟨c4_matcher_soft_fallback.1 3 3 "bogus_mode" (by decide),
   c4_matcher_soft_fallback.2.2.1 "Ab" "aB" "bogus_mode" (by decide) (by decide),
   c4_matcher_soft_fallback.2.2.2.1 (.fin 1) (.fin 1) "bogus_mode" (by decide)⟩

/-! ### C6 -/

/-- `startsWithAux p l` decides that `p` is an initial segment of `l`. -/
theorem startsWithAux_iff (p : List Char) :
    ∀ l, startsWithAux p l = true ↔ ∃ t, l = p ++ t := by
  induction p with
  | nil =>
    intro l
    simp [startsWithAux]
  | cons a as ih =>
    intro l
    cases l with
    | nil => simp [startsWithAux]
    | cons b bs =>
      simp only [startsWithAux, Bool.and_eq_true, beq_iff_eq, ih,
        List.cons_append, List.cons.injEq]
      constructor
      · rintro ⟨rfl, t, rfl⟩
        exact ⟨t, rfl, rfl⟩
      · rintro ⟨t, rfl, rfl⟩
        exact ⟨rfl, t, rfl⟩

/-- `containsAux sub l` decides that `sub` occurs contiguously in `l`. -/
theorem containsAux_iff (sub : List Char) :
    ∀ l, containsAux sub l = true ↔ ∃ l1 l2, l = l1 ++ sub ++ l2 := by
  intro l
  induction l with
  | nil =>
    simp only [containsAux, List.isEmpty_iff]
    constructor
    · rintro rfl
      exact ⟨[], [], rfl⟩
    · rintro ⟨l1, l2, h⟩
      rcases List.append_eq_nil.mp (List.append_eq_nil.mp h.symm).1 with ⟨-, h2⟩
      exact h2
  | cons c rest ih =>
    simp only [containsAux, Bool.or_eq_true, startsWithAux_iff, ih]
    constructor
    · rintro (⟨t, ht⟩ | ⟨l1, l2, h⟩)
      · exact ⟨[], t, by simp [ht]⟩
      · exact ⟨c :: l1, l2, by simp [h]⟩
    · rintro ⟨l1, l2, h⟩
      cases l1 with
      | nil =>
        exact Or.inl ⟨l2, by simpa using h⟩
      | cons x l1 =>
        rw [List.cons_append, List.cons_append, List.cons.injEq] at h
        exact Or.inr ⟨l1, l2, h.2⟩

/-- `eqFoldList` decides equality of the case-folded character lists. -/
theorem eqFoldList_iff :
    ∀ a b : List Char, eqFoldList a b = true ↔ a.map simpleFold = b.map simpleFold := by
  intro a
  induction a with
  | nil =>
    intro b
    cases b <;> simp [eqFoldList]
  | cons x xs ih =>
    intro b
    cases b with
    | nil => simp [eqFoldList]
    | cons y ys =>
      simp [eqFoldList, ih ys, List.cons.injEq]

/-- C6: String matcher modes.  In `substring` mode the matcher reports
containment of the filter as a contiguous substring of the value; in
`re` mode it applies the precompiled pattern (modelled by its matching
function) to the value; in any other mode it reports case-insensitive
equality of filter and value (equality of the simple-case-folded
character sequences, as `strings.EqualFold` computes it). -/
theorem c6_string_modes :
    (∀ v f : String,
      valueMatches strSchema (.str v) (.str f) "substring" = some true ↔
        ∃ l1 l2, v.toList = l1 ++ f.toList ++ l2) ∧
    (∀ (v : String) (r : String → Bool),
      valueMatches strSchema (.str v) (.regex r) "re" = some (r v)) ∧
    (∀ v f m : String, m ≠ "substring" → m ≠ "re" →
      (valueMatches strSchema (.str v) (.str f) m = some (goEqualFold f v) ∧
       (goEqualFold f v = true ↔ f.toList.map simpleFold = v.toList.map simpleFold))) := by
  refine ⟨fun v f => ?_, fun v r => rfl, fun v f m h1 h2 => ⟨?_, eqFoldList_iff _ _⟩⟩
  · show some (goContains v f) = some true ↔ _
    rw [Option.some_inj]
    exact (containsAux_iff f.toList v.toList).trans Iff.rfl
  · simp only [valueMatches, strSchema, Schema.type]

/-- C6 witness: the spec's own examples, with mode `""` for the
default clause. -/
theorem c6_string_modes_witness :
    (valueMatches strSchema (.str "Hello World") (.str "World") "substring"
        = some true) ∧
    (valueMatches strSchema (.str "abc") (.regex (fun s => s.startsWith "a")) "re"
        = some ((fun s : String => s.startsWith "a") "abc")) ∧
    valueMatches strSchema (.str "Hello") (.str "hello") ""
        = some (goEqualFold "hello" "Hello") :=
  ⟨(c6_string_modes.1 "Hello World" "World").mpr
      ⟨"Hello ".toList, [], by decide⟩,
   c6_string_modes.2.1 "abc" (fun s => s.startsWith "a"),
   (c6_string_modes.2.2 "Hello" "hello" "" (by decide) (by decide)).1⟩

/-! ### C5 -/

/-- Characterization of the element loop: when the element schema is
present, the loop panics iff some recursive call panics, and otherwise
returns the OR of the accumulator with the per-element results. -/
theorem matchElems_eq (es : Schema) (fv : Value) (m : String) :
    ∀ (vs : List Value) (acc : Bool),
      matchElems (some es) vs fv m acc =
        if vs.all (fun v => (valueMatches es v fv m).isSome) then
          some (acc || vs.any (fun v => valueMatches es v fv m == some true))
        else none := by
  intro vs
  induction vs with
  | nil => intro acc; simp [matchElems]
  | cons v rest ih =>
    intro acc
    cases hv : valueMatches es v fv m with
    | none => simp [matchElems, hv]
    | some b =>
      have lhs : matchElems (some es) (v :: rest) fv m acc
          = matchElems (some es) rest fv m (acc || b) := by
        simp [matchElems, hv]
      rw [lhs, ih (acc || b)]
      simp only [List.all_cons, List.any_cons, hv, Option.isSome_some,
        Bool.true_and]
      rcases rest.all (fun v => (valueMatches es v fv m).isSome) with _ | _
      · simp
      · simp only [if_true]
        congr 1
        cases b <;> simp

/-- A permutation leaves `List.all` unchanged. -/
theorem perm_all_eq {α : Type _} {l l' : List α} (h : l.Perm l') (p : α → Bool) :
    l.all p = l'.all p := by
  rw [Bool.eq_iff_iff]
  simp only [List.all_eq_true]
  exact ⟨fun H v hv => H v (h.mem_iff.mpr hv), fun H v hv => H v (h.mem_iff.mp hv)⟩

/-- A permutation leaves `List.any` unchanged. -/
theorem perm_any_eq {α : Type _} {l l' : List α} (h : l.Perm l') (p : α → Bool) :
    l.any p = l'.any p := by
  rw [Bool.eq_iff_iff]
  simp only [List.any_eq_true]
  exact ⟨fun ⟨v, hv, hp⟩ => ⟨v, h.mem_iff.mp hv, hp⟩,
    fun ⟨v, hv, hp⟩ => ⟨v, h.mem_iff.mpr hv, hp⟩⟩

/-- C5: collection OR semantics.  When every recursive call returns
normally, a List (and a Set) matches iff at least one element matches
under the same filter value and mode; an empty collection matches
nothing; and the result is invariant under permutation of the
elements. -/
theorem c5_collection_or :
    (∀ (es : Schema) (fv : Value) (m : String) (vs : List Value),
      (∀ v ∈ vs, (valueMatches es v fv m).isSome = true) →
      ((valueMatches (.mk .TypeList (some es)) (.list vs) fv m = some true ↔
          ∃ v ∈ vs, valueMatches es v fv m = some true) ∧
       (valueMatches (.mk .TypeSet (some es)) (.set vs) fv m = some true ↔
          ∃ v ∈ vs, valueMatches es v fv m = some true))) ∧
    (∀ (es : Schema) (fv : Value) (m : String),
      valueMatches (.mk .TypeList (some es)) (.list []) fv m = some false ∧
      valueMatches (.mk .TypeSet (some es)) (.set []) fv m = some false) ∧
    (∀ (es : Schema) (fv : Value) (m : String) (vs vs' : List Value),
      vs.Perm vs' →
      valueMatches (.mk .TypeList (some es)) (.list vs) fv m =
        valueMatches (.mk .TypeList (some es)) (.list vs') fv m ∧
      valueMatches (.mk .TypeSet (some es)) (.set vs) fv m =
        valueMatches (.mk .TypeSet (some es)) (.set vs') fv m) := by
  have key : ∀ (es : Schema) (fv : Value) (m : String) (vs : List Value),
      (∀ v ∈ vs, (valueMatches es v fv m).isSome = true) →
      (matchElems (some es) vs fv m false = some true ↔
        ∃ v ∈ vs, valueMatches es v fv m = some true) := by
    intro es fv m vs h
    rw [matchElems_eq, if_pos (List.all_eq_true.mpr h)]
    simp only [Bool.false_or, Option.some_inj, List.any_eq_true, beq_iff_eq]
  refine ⟨fun es fv m vs h => ⟨key es fv m vs h, key es fv m vs h⟩,
    fun es fv m => ⟨rfl, rfl⟩, fun es fv m vs vs' hp => ?_⟩
  have hpe : matchElems (some es) vs fv m false =
      matchElems (some es) vs' fv m false := by
    rw [matchElems_eq, matchElems_eq, perm_all_eq hp, perm_any_eq hp]
  exact ⟨hpe, hpe⟩

/-- C5 witness: the spec's example list `[1,2,3]` with filter `2` in
default mode. -/
theorem c5_collection_or_witness :
    valueMatches (.mk .TypeList (some intSchema))
        (.list [.int 1, .int 2, .int 3]) (.int 2) "" = some true :=
  (c5_collection_or.1 intSchema (.int 2) "" [.int 1, .int 2, .int 3]
      (by decide)).1.mpr
    ⟨.int 2, List.mem_cons_of_mem _ (List.mem_cons_self _ _), by decide⟩

/-! ### C8 -/

/-- C8 counterexample: at `value1 = value2 = +Inf` the Go comparator
reaches the defensive fallback — `math.Abs(Inf - Inf)` is NaN, so the
epsilon test is false, and `Inf < Inf`, `Inf > Inf` are both false —
although neither argument is NaN.  This refutes "reachable exactly
when a or b is NaN"; the fallback still returns `0` there. -/
theorem c8_float_compare_fallback_cex :
    floatApproxEquals .posInf .posInf = false ∧
    fltB .posInf .posInf = false ∧
    fgtB .posInf .posInf = false ∧
    ¬ (FVal.posInf = .nan ∨ FVal.posInf = .nan) ∧
    compareValues floatSchema (.float .posInf) (.float .posInf) = some 0 := by
  decide

/-- C8 (amended): comparator float defensive fallback.  On a Float
schema the comparator always returns a result (never panics); the
fallback condition — neither epsilon-equal, nor less, nor greater —
holds exactly when an argument is NaN or both arguments are the same
infinity; and whenever it holds (in particular whenever an argument is
NaN) the result is `0`. -/
theorem c8_float_compare_fallback (a b : FVal) :
    (compareValues floatSchema (.float a) (.float b)).isSome = true ∧
    ((floatApproxEquals a b = false ∧ fltB a b = false ∧ fgtB a b = false) ↔
      (a = .nan ∨ b = .nan ∨ (a = .posInf ∧ b = .posInf) ∨
        (a = .negInf ∧ b = .negInf))) ∧
    ((floatApproxEquals a b = false ∧ fltB a b = false ∧ fgtB a b = false) →
      compareValues floatSchema (.float a) (.float b) = some 0) ∧
    ((a = .nan ∨ b = .nan) →
      compareValues floatSchema (.float a) (.float b) = some 0) := by
  cases a <;> cases b
  case fin.fin x y =>
    have hiff : (floatApproxEquals (.fin x) (.fin y) = false ∧
        fltB (.fin x) (.fin y) = false ∧ fgtB (.fin x) (.fin y) = false) ↔
        ((FVal.fin x) = .nan ∨ (FVal.fin y) = .nan ∨
          ((FVal.fin x) = .posInf ∧ (FVal.fin y) = .posInf) ∨
          ((FVal.fin x) = .negInf ∧ (FVal.fin y) = .negInf)) := by
      simp only [floatApproxEquals, fltB, fgtB, decide_eq_false_iff_not]
      constructor
      · rintro ⟨h1, h2, h3⟩
        exfalso
        have hxy : x = y := le_antisymm (not_lt.mp h3) (not_lt.mp h2)
        apply h1
        rw [hxy, sub_self, abs_zero]
        norm_num
      · rintro (h | h | ⟨h, -⟩ | ⟨h, -⟩) <;> exact absurd h (by simp)
    refine ⟨rfl, hiff, fun hc => ?_, fun hc => ?_⟩
    · rcases hiff.mp hc with h | h | ⟨h, -⟩ | ⟨h, -⟩ <;> exact FVal.noConfusion h
    · rcases hc with h | h <;> exact FVal.noConfusion h
  case fin.nan x =>
    exact ⟨rfl, by simp [floatApproxEquals, fltB, fgtB], fun _ => rfl,
      fun _ => rfl⟩
  case nan.fin y =>
    exact ⟨rfl, by simp [floatApproxEquals, fltB, fgtB], fun _ => rfl,
      fun _ => rfl⟩
  case fin.posInf x =>
    exact ⟨rfl, by simp [floatApproxEquals, fltB, fgtB],
      fun hc => absurd hc.2.1 (by simp [fltB]),
      fun hc => by rcases hc with h | h <;> exact FVal.noConfusion h⟩
  case fin.negInf x =>
    exact ⟨rfl, by simp [floatApproxEquals, fltB, fgtB],
      fun hc => absurd hc.2.2 (by simp [fgtB]),
      fun hc => by rcases hc with h | h <;> exact FVal.noConfusion h⟩
  case posInf.fin y =>
    exact ⟨rfl, by simp [floatApproxEquals, fltB, fgtB],
      fun hc => absurd hc.2.2 (by simp [fgtB]),
      fun hc => by rcases hc with h | h <;> exact FVal.noConfusion h⟩
  case negInf.fin y =>
    exact ⟨rfl, by simp [floatApproxEquals, fltB, fgtB],
      fun hc => absurd hc.2.1 (by simp [fltB]),
      fun hc => by rcases hc with h | h <;> exact FVal.noConfusion h⟩
  all_goals decide

/-- C8 witness: NaN against `1.0` compares as equal, and the amended
reachability clause at the same-infinity pair. -/
theorem c8_float_compare_fallback_witness :
    compareValues floatSchema (.float .nan) (.float (.fin 1)) = some 0 ∧
    (floatApproxEquals .negInf .negInf = false ∧ fltB .negInf .negInf = false ∧
      fgtB .negInf .negInf = false) :=
  ⟨(c8_float_compare_fallback .nan (.fin 1)).2.2.2 (Or.inl rfl),
   (c8_float_compare_fallback .negInf .negInf).2.1.mpr
      (Or.inr (Or.inr (Or.inr ⟨rfl, rfl⟩)))⟩

/-! ### C9 -/

/-- C9: NaN never matches.  In each of the four relational modes and
the default mode, a NaN value matches no float filter, and a NaN
filter matches no float value. -/
theorem c9_nan_never_matches (x : FVal) (m : String)
    (hm : m ∈ "" :: relationalModes) :
    valueMatches floatSchema (.float .nan) (.float x) m = some false ∧
    valueMatches floatSchema (.float x) (.float .nan) m = some false := by
  simp only [List.mem_cons, relationalModes, List.not_mem_nil, or_false] at hm
  rcases hm with rfl | rfl | rfl | rfl | rfl <;>
    cases x <;> constructor <;>
      simp [valueMatches, floatSchema, Schema.type, floatApproxEquals,
        fltB, fgtB, fneZero]

/-- C9 witness: NaN value and NaN filter in mode `less_than`. -/
theorem c9_nan_never_matches_witness :
    valueMatches floatSchema (.float .nan) (.float (.fin 1)) "less_than"
        = some false ∧
    valueMatches floatSchema (.float (.fin 1)) (.float .nan) "less_than"
        = some false :=
  c9_nan_never_matches (.fin 1) "less_than" (by decide)

/-! ### C10 -/

/-- C10: the zero-as-absent check is exact and one-sided.  Any nonzero
value — however close to zero — is compared normally against the
filter in the four relational modes, a value of `1e-9` with filter `0`
in mode `greater_than` matches, and a filter of `0.0` does not trigger
the rule (value `1.0`, filter `0.0`, `greater_than` is true). -/
theorem c10_zero_check_exact :
    (∀ (q : ℚ), q ≠ 0 → ∀ (f : FVal),
      valueMatches floatSchema (.float (.fin q)) (.float f) "less_than"
          = some (fltB (.fin q) f) ∧
      valueMatches floatSchema (.float (.fin q)) (.float f) "less_than_or_equal"
          = some (fltB (.fin q) f || floatApproxEquals f (.fin q)) ∧
      valueMatches floatSchema (.float (.fin q)) (.float f) "greater_than"
          = some (fgtB (.fin q) f) ∧
      valueMatches floatSchema (.float (.fin q)) (.float f) "greater_than_or_equal"
          = some (fgtB (.fin q) f || floatApproxEquals f (.fin q))) ∧
    valueMatches floatSchema (.float (.fin (1/1000000000))) (.float (.fin 0))
        "greater_than" = some true ∧
    valueMatches floatSchema (.float (.fin 1)) (.float (.fin 0)) "greater_than"
        = some true := by
  refine ⟨fun q hq f => ?_, ?_, ?_⟩
  case refine_2 =>
    have h1 : fneZero (.fin (1/1000000000)) = true := by norm_num [fneZero]
    have h2 : fgtB (.fin (1/1000000000)) (.fin 0) = true := by norm_num [fgtB]
    show some (fneZero (.fin (1/1000000000)) && fgtB (.fin (1/1000000000)) (.fin 0))
        = some true
    rw [h1, h2]
    rfl
  case refine_3 =>
    have h1 : fneZero (.fin 1) = true := by norm_num [fneZero]
    have h2 : fgtB (.fin 1) (.fin 0) = true := by norm_num [fgtB]
    show some (fneZero (.fin 1) && fgtB (.fin 1) (.fin 0)) = some true
    rw [h1, h2]
    rfl
  have hne : fneZero (.fin q) = true := decide_eq_true hq
  refine ⟨?_, ?_, ?_, ?_⟩
  · show some (fneZero (.fin q) && fltB (.fin q) f) = _
    rw [hne, Bool.true_and]
  · show some (fneZero (.fin q) &&
        (fltB (.fin q) f || floatApproxEquals f (.fin q))) = _
    rw [hne, Bool.true_and]
  · show some (fneZero (.fin q) && fgtB (.fin q) f) = _
    rw [hne, Bool.true_and]
  · show some (fneZero (.fin q) &&
        (fgtB (.fin q) f || floatApproxEquals f (.fin q))) = _
    rw [hne, Bool.true_and]

/-- C10 witness: value `2.0` (nonzero) compared normally against
filter `1.0` in mode `less_than`. -/
theorem c10_zero_check_exact_witness :
    valueMatches floatSchema (.float (.fin 2)) (.float (.fin 1)) "less_than"
      = some (fltB (.fin 2) (.fin 1)) :=
  (c10_zero_check_exact.1 2 (by norm_num) (.fin 1)).1

/-! ### C7 -/

/-- Modelled from the spec: the sorting layer that consumes
`compareValues` is not part of the excerpted source (only the
comparator itself is), so the spec's "sorting a sequence by `compare`"
is modelled here.  `cmpLeB` is the non-strict comparator predicate
"`compareValues` returns an ordering result that is at most zero". -/
def cmpLeB (s : Schema) (a b : Value) : Bool :=
  match compareValues s a b with
  | some n => decide (n ≤ 0)
  | none => false

/-- Modelled from the spec: ordered insertion of one value into a
sorted sequence, comparing with `cmpLeB`. -/
def orderedInsertCmp (s : Schema) (a : Value) : List Value → List Value
  | [] => [a]
  | b :: l => if cmpLeB s a b then a :: b :: l else b :: orderedInsertCmp s a l

/-- Modelled from the spec: sorting a sequence of values using
`compareValues` as the comparator (insertion sort). -/
def sortByCompare (s : Schema) : List Value → List Value
  | [] => []
  | a :: l => orderedInsertCmp s a (sortByCompare s l)

/-- A value whose runtime shape agrees with the given scalar type tag. -/
def valueHasType : ValueType → Value → Bool
  | .TypeString, .str _ => true
  | .TypeBool, .bool _ => true
  | .TypeInt, .int _ => true
  | .TypeFloat, .float _ => true
  | _, _ => false

/-- The four type tags the comparator supports. -/
def orderableTypes : List ValueType :=
  [.TypeString, .TypeBool, .TypeInt, .TypeFloat]

/-- Unfolding of `cmpLeB` on a String schema. -/
theorem cmpLeB_str (elem : Option Schema) (a b : String) :
    cmpLeB (.mk .TypeString elem) (.str a) (.str b)
      = decide (goStrCompare a b ≤ 0) := rfl

/-- Unfolding of `cmpLeB` on an Int schema. -/
theorem cmpLeB_int (elem : Option Schema) (a b : ℤ) :
    cmpLeB (.mk .TypeInt elem) (.int a) (.int b)
      = decide ((if a < b then (-1 : Int) else if a > b then 1 else 0) ≤ 0) := rfl

/-- Unfolding of `cmpLeB` on a Float schema. -/
theorem cmpLeB_float (elem : Option Schema) (v1 v2 : FVal) :
    cmpLeB (.mk .TypeFloat elem) (.float v1) (.float v2)
      = decide ((if floatApproxEquals v1 v2 then (0 : Int)
          else if fltB v1 v2 then -1
          else if fgtB v1 v2 then 1 else 0) ≤ 0) := rfl

/-- On well-typed values of an orderable type, `cmpLeB` is total: one
of the two orientations compares at most zero.  (It is not transitive
— the float epsilon-equality is not transitive and NaN compares equal
to everything — but totality is all that adjacent-pair sortedness of
an insertion sort needs.) -/
theorem cmpLeB_total (t : ValueType) (ht : t ∈ orderableTypes)
    (elem : Option Schema) (a b : Value)
    (ha : valueHasType t a = true) (hb : valueHasType t b = true) :
    cmpLeB (.mk t elem) a b = true ∨ cmpLeB (.mk t elem) b a = true := by
  cases t
  case TypeInvalid => exact absurd ht (by decide)
  case TypeMap => exact absurd ht (by decide)
  case TypeList => exact absurd ht (by decide)
  case TypeSet => exact absurd ht (by decide)
  case TypeString =>
    cases a <;> simp [valueHasType] at ha
    cases b <;> simp [valueHasType] at hb
    rename_i x y
    rcases lt_trichotomy x y with h | h | h
    · left
      rw [cmpLeB_str, decide_eq_true_eq, goStrCompare, if_pos h]
      norm_num
    · subst h
      left
      rw [cmpLeB_str, decide_eq_true_eq, goStrCompare, if_neg (lt_irrefl x),
        if_neg (lt_irrefl x)]
    · right
      rw [cmpLeB_str, decide_eq_true_eq, goStrCompare, if_pos h]
      norm_num
  case TypeBool =>
    cases a <;> simp [valueHasType] at ha
    cases b <;> simp [valueHasType] at hb
    rename_i x y
    cases x <;> cases y
    · exact Or.inl rfl
    · exact Or.inl rfl
    · exact Or.inr rfl
    · exact Or.inl rfl
  case TypeInt =>
    cases a <;> simp [valueHasType] at ha
    cases b <;> simp [valueHasType] at hb
    rename_i x y
    by_cases h : x ≤ y
    · left
      rw [cmpLeB_int, decide_eq_true_eq]
      split_ifs <;> omega
    · right
      rw [cmpLeB_int, decide_eq_true_eq]
      split_ifs <;> omega
  case TypeFloat =>
    cases a <;> simp [valueHasType] at ha
    cases b <;> simp [valueHasType] at hb
    rename_i v1 v2
    cases v1 with
    | nan =>
      left
      cases v2 <;> exact rfl
    | posInf =>
      cases v2 with
      | nan => exact Or.inl rfl
      | posInf => exact Or.inl rfl
      | negInf => exact Or.inr rfl
      | fin r => exact Or.inr rfl
    | negInf =>
      cases v2 <;> exact Or.inl rfl
    | fin q =>
      cases v2 with
      | nan => exact Or.inl rfl
      | posInf => exact Or.inl rfl
      | negInf => exact Or.inr rfl
      | fin r =>
        by_cases happ : |q - r| < 1/1000000
        · left
          rw [cmpLeB_float, show floatApproxEquals (.fin q) (.fin r) = true
            from decide_eq_true happ]
          rfl
        · rcases lt_trichotomy q r with h | h | h
          · left
            rw [cmpLeB_float, show floatApproxEquals (.fin q) (.fin r) = false
              from decide_eq_false happ, show fltB (.fin q) (.fin r) = true
              from decide_eq_true h]
            rfl
          · exact absurd (by rw [h, sub_self, abs_zero]; norm_num) happ
          · right
            have happ2 : ¬ |r - q| < 1/1000000 := by rwa [abs_sub_comm]
            rw [cmpLeB_float, show floatApproxEquals (.fin r) (.fin q) = false
              from decide_eq_false happ2, show fltB (.fin r) (.fin q) = true
              from decide_eq_true h]
            rfl

/-- Ordered insertion only produces the inserted value or values of
the original list. -/
theorem mem_orderedInsertCmp (s : Schema) (a x : Value) :
    ∀ l : List Value, x ∈ orderedInsertCmp s a l → x = a ∨ x ∈ l := by
  intro l
  induction l with
  | nil =>
    intro h
    simp [orderedInsertCmp] at h
    exact Or.inl h
  | cons b l ih =>
    intro h
    simp only [orderedInsertCmp] at h
    by_cases hab : cmpLeB s a b = true
    · rw [if_pos hab] at h
      rcases List.mem_cons.mp h with rfl | h2
      · exact Or.inl rfl
      · exact Or.inr h2
    · rw [if_neg hab] at h
      rcases List.mem_cons.mp h with rfl | h2
      · exact Or.inr (List.mem_cons_self _ _)
      · rcases ih h2 with rfl | h3
        · exact Or.inl rfl
        · exact Or.inr (List.mem_cons_of_mem _ h3)

/-- Ordered insertion preserves adjacent-pair sortedness, assuming
only that the inserted value compares with every list element in one
orientation or the other (no transitivity needed). -/
theorem chain_orderedInsertCmp (s : Schema) (a : Value) :
    ∀ l : List Value,
      (∀ x ∈ l, cmpLeB s a x = true ∨ cmpLeB s x a = true) →
      List.Chain' (fun x y => cmpLeB s x y = true) l →
      List.Chain' (fun x y => cmpLeB s x y = true) (orderedInsertCmp s a l) := by
  intro l
  induction l with
  | nil =>
    intro _ _
    simp [orderedInsertCmp]
  | cons b l ih =>
    intro tot hc
    simp only [orderedInsertCmp]
    by_cases hab : cmpLeB s a b = true
    · rw [if_pos hab]
      exact List.chain'_cons.mpr ⟨hab, hc⟩
    · rw [if_neg hab]
      have hba : cmpLeB s b a = true :=
        (tot b (List.mem_cons_self b l)).resolve_left hab
      have htail : List.Chain' (fun x y => cmpLeB s x y = true)
          (orderedInsertCmp s a l) :=
        ih (fun x hx => tot x (List.mem_cons_of_mem b hx)) hc.tail
      refine List.chain'_cons'.mpr ⟨?_, htail⟩
      intro y hy
      cases l with
      | nil =>
        simp [orderedInsertCmp] at hy
        subst hy
        exact hba
      | cons c l2 =>
        simp only [orderedInsertCmp] at hy
        by_cases hac : cmpLeB s a c = true
        · rw [if_pos hac] at hy
          simp at hy
          subst hy
          exact hba
        · rw [if_neg hac] at hy
          simp at hy
          subst hy
          exact (List.chain'_cons.mp hc).1

/-- The sorted sequence only holds values of the input sequence. -/
theorem mem_sortByCompare (s : Schema) (x : Value) :
    ∀ l : List Value, x ∈ sortByCompare s l → x ∈ l := by
  intro l
  induction l with
  | nil =>
    intro h
    simp [sortByCompare] at h
  | cons a l ih =>
    intro h
    simp only [sortByCompare] at h
    rcases mem_orderedInsertCmp s a x _ h with rfl | h2
    · exact List.mem_cons_self _ _
    · exact List.mem_cons_of_mem _ (ih h2)

/-- Sorting by `cmpLeB` yields an adjacent-pair sorted sequence as
soon as the comparator is total on the elements. -/
theorem chain_sortByCompare (s : Schema) :
    ∀ l : List Value,
      (∀ x ∈ l, ∀ y ∈ l, cmpLeB s x y = true ∨ cmpLeB s y x = true) →
      List.Chain' (fun x y => cmpLeB s x y = true) (sortByCompare s l) := by
  intro l
  induction l with
  | nil =>
    intro _
    simp [sortByCompare]
  | cons a l ih =>
    intro tot
    simp only [sortByCompare]
    apply chain_orderedInsertCmp
    · intro x hx
      exact tot a (List.mem_cons_self a l) x
        (List.mem_cons_of_mem a (mem_sortByCompare s x l hx))
    · exact ih fun x hx y hy => tot x (List.mem_cons_of_mem a hx) y
        (List.mem_cons_of_mem a hy)

/-- C7: sortedness round-trip.  For every finite sequence of
well-typed values of one orderable type (String, Bool, Int or Float),
sorting with `compareValues` as the comparator yields a sequence in
which every adjacent pair `(a, b)` satisfies
`compareValues s a b ≤ 0` (expressed by `cmpLeB`). -/
theorem c7_sort_roundtrip (t : ValueType) (ht : t ∈ orderableTypes)
    (elem : Option Schema) (l : List Value)
    (hl : ∀ v ∈ l, valueHasType t v = true) :
    List.Chain' (fun a b => cmpLeB (.mk t elem) a b = true)
      (sortByCompare (.mk t elem) l) :=
  chain_sortByCompare (.mk t elem) l fun x hx y hy =>
    cmpLeB_total t ht elem x y (hl x hx) (hl y hy)

/-- C7 witness: sorting the integer sequence `[3, 1, 2]`. -/
theorem c7_sort_roundtrip_witness :
    List.Chain' (fun a b => cmpLeB (.mk .TypeInt none) a b = true)
      (sortByCompare (.mk .TypeInt none) [.int 3, .int 1, .int 2]) :=
  c7_sort_roundtrip .TypeInt (by decide) none [.int 3, .int 1, .int 2]
    (by decide)
